import Mathlib

/-!
# Verification of `scripts/generate_lang_card.py`

This file gives a shallow embedding of the language-card generator:
a pipeline that lists a GitHub account's repositories page by page,
aggregates per-language byte counts, ranks languages (top N plus an
"Other" bucket), renders an SVG donut-chart card, and writes it to a
file.

Modelling conventions:
* Python floats are modelled by exact rationals (`ℚ`).  The spec's
  floating-point tolerances are subsumed by exact equalities over `ℚ`.
* Python's `sorted(..., key=..., reverse=True)` is a stable sort; a
  stable sort is extensionally unique given the comparison, so it is
  embedded by Mathlib's stable `List.insertionSort` with the relation
  "byte count of the left argument is at least that of the right".
* HTTP calls (`fetch_json`) are modelled by oracle functions returning
  `Except`: `fetchPage` for repository-listing pages and `fetchLang`
  for per-repository language breakdowns.
* The unbounded `while True` pagination loop is given explicit fuel;
  the theorems only exercise runs in which an empty page appears
  within the fuel, where the fuel model and the Python loop agree.
* Python dicts are modelled by association lists in insertion order
  (`totals[k] = totals.get(k, 0) + v` updates in place or appends).
* The filesystem touched by `main` (lines 228-230) is explicit state:
  a record of directories and files, with `os.path.dirname`,
  `os.makedirs` and `open(..., "w")` semantics embedded directly.
-/

/-- A ranked language entry, as built in `main` (lines 205-224):
`{"name": ..., "percent": ..., "color": ...}`. -/
structure Item where
  name : String
  percent : ℚ
  color : String
deriving DecidableEq

/-- The fixed color palette of `main` (lines 191-200). -/
def palette : List String :=
  ["#3b82f6", "#22c55e", "#f59e0b", "#f43f5e", "#8b5cf6", "#38bdf8", "#10b981", "#fb923c"]

/-- `total_bytes = sum(totals.values())` (line 186). -/
def total_bytes (totals : List (String × ℕ)) : ℕ :=
  (totals.map (·.2)).sum

/-- `sorted(totals.items(), key=lambda item: item[1], reverse=True)` (line 201).
Python's sort is stable and stable sorts are extensionally unique, so the
stable `List.insertionSort` with this relation computes the same list. -/
def sorted_langs (totals : List (String × ℕ)) : List (String × ℕ) :=
  List.insertionSort (fun a b => b.2 ≤ a.2) totals

/-- `other_bytes = sum(value for _, value in sorted_langs[args.top:])` (line 203). -/
def other_bytes (totals : List (String × ℕ)) (top : ℕ) : ℕ :=
  (((sorted_langs totals).drop top).map (·.2)).sum

/-- The `items` list built from `top_langs = sorted_langs[:args.top]`
(lines 202, 205-214): each kept language gets
`percent = (value / total_bytes) * 100` and `color = palette[idx % len(palette)]`. -/
def ranked_items (totals : List (String × ℕ)) (top : ℕ) : List Item :=
  ((sorted_langs totals).take top).enum.map (fun p =>
    { name := p.2.1,
      percent := ((p.2.2 : ℚ) / (total_bytes totals : ℚ)) * 100,
      color := palette.getD (p.1 % palette.length) "" })

/-- The ranking stage of `main` (lines 186-224): on a zero byte total the
renderer receives an empty list (line 189); otherwise the list is
`ranked_items`, with a trailing "Other" entry appended when the excluded
byte count is positive (lines 216-224). -/
def rank_languages (totals : List (String × ℕ)) (top : ℕ) : List Item :=
  if total_bytes totals = 0 then []
  else if 0 < other_bytes totals top then
    ranked_items totals top ++
      [{ name := "Other",
         percent := ((other_bytes totals top : ℚ) / (total_bytes totals : ℚ)) * 100,
         color := "#9ca3af" }]
  else ranked_items totals top

/-- Left-pad a numeral string with zeros to `n` digits. -/
def padZeros (s : String) (n : ℕ) : String :=
  String.mk (List.replicate (n - s.length) '0') ++ s

/-- Python fixed-point formatting `f"{q:.d}"` on an exact rational:
round half to even at `decimals` decimal places.  (Python rounds the
decimal expansion of the IEEE double the same way; the rational model
formats the exact value.) -/
def fmtFixed (q : ℚ) (decimals : ℕ) : String :=
  let scale : ℕ := 10 ^ decimals
  let sign := if q < 0 then "-" else ""
  let a : ℚ := |q| * (scale : ℚ)
  let w : ℕ := a.num.toNat / a.den
  let r : ℕ := a.num.toNat % a.den
  let k : ℕ :=
    if 2 * r < a.den then w
    else if a.den < 2 * r then w + 1
    else if w % 2 = 0 then w else w + 1
  sign ++ toString (k / scale) ++
    (if decimals = 0 then "" else "." ++ padZeros (toString (k % scale)) decimals)

/-- `format_percent` (lines 56-57): `f"{value:.1f}%"`. -/
def format_percent (value : ℚ) : String :=
  fmtFixed value 1 ++ "%"

/-- `truncate_label` (lines 60-65). -/
def truncate_label (value : String) (max_len : ℕ := 16) : String :=
  if value.length ≤ max_len then value
  else if max_len ≤ 3 then String.mk (value.toList.take max_len)
  else String.mk (value.toList.take (max_len - 3)) ++ "..."

/-- `circumference = 2 * math.pi * donut_radius` (line 83) with
`donut_radius = 78`, evaluated in IEEE doubles: the exact value of the
resulting double is `8621727260284661 / 2^44`. -/
def circumference : ℚ := 8621727260284661 / 17592186044416

/-- One donut arc as emitted by the loop of `build_svg` (lines 137-150):
its stroke color, its dash length `circumference * percent / 100`, and the
accumulated dash offset at which it starts. -/
structure Arc where
  color : String
  length : ℚ
  offset : ℚ
deriving DecidableEq

/-- The arc-accumulation loop of `build_svg` (lines 137-150), carrying the
running `offset`: entries with `percent <= 0` are skipped, each drawn entry
contributes an arc of length `circumference * (percent / 100)` at the
current offset, and advances the offset by that length. -/
def arc_segmentsAux (off : ℚ) : List Item → List Arc
  | [] => []
  | item :: rest =>
    if item.percent ≤ 0 then arc_segmentsAux off rest
    else
      { color := item.color,
        length := circumference * (item.percent / 100),
        offset := off } :: arc_segmentsAux (off + circumference * (item.percent / 100)) rest

/-- The arcs drawn by `build_svg`, starting from `offset = 0.0` (line 137). -/
def arc_segments (items : List Item) : List Arc :=
  arc_segmentsAux 0 items

/-- Restatement of the spec's wording for the arc layout: one arc per
entry with positive percent, in order; the k-th such arc has length
`circumference * percent / 100` and an angular offset equal to the sum of
the lengths of all previously drawn segments.  Used only to compare with
`arc_segments`, which is the embedding of the source loop. -/
def arc_segmentsSpec (items : List Item) : List Arc :=
  let pos := items.filter (fun i => decide (0 < i.percent))
  (List.range pos.length).map (fun k =>
    let i := pos.getD k ⟨"", 0, ""⟩
    { color := i.color,
      length := circumference * (i.percent / 100),
      offset := ((pos.take k).map (fun j => circumference * (j.percent / 100))).sum })

/-- Substring containment on strings, viewed as code-point sequences. -/
def strHasSub (s pat : String) : Prop :=
  pat.toList <:+: s.toList

instance (s pat : String) : Decidable (strHasSub s pat) :=
  inferInstanceAs (Decidable (pat.toList <:+: s.toList))

/-- Python's `"\n".join`: empty for no lines, otherwise the lines
separated by single newlines. -/
def join_lines : List String → String
  | [] => ""
  | [s] => s
  | s :: rest => s ++ "\n" ++ join_lines rest

/-- The list of SVG lines accumulated by `build_svg` (lines 68-174) in
its `svg` list, in order.  Geometry is integer arithmetic
(`int(height / 2)` truncates toward zero, hence `Int.tdiv`); the Python
`height = height or ...` default treats both `None` and `0` as absent.
In the arc lines, `offset` is a sum of positive lengths, so the Python
`f"{-offset:.2f}"` always renders as a minus sign followed by the
formatted magnitude (including `-0.00` for the first arc). -/
def build_svg_lines (items : List Item) (totalBytes : ℕ) (width : ℤ)
    (height : Option ℤ) : List String :=
  let title := "Language Mix"
  let subtitle := "Auto-updated daily"
  let title_x : ℤ := 28
  let title_y : ℤ := 42
  let line_height : ℤ := 22
  let list_start_y : ℤ := 92
  let list_height : ℤ := list_start_y + (items.length : ℤ) * line_height
  let height : ℤ := match height with
    | some h => if h ≠ 0 then h else max 230 (list_height + 24)
    | none => max 230 (list_height + 24)
  let donut_cx : ℤ := width - 170
  let donut_cy : ℤ := Int.tdiv height 2 + 4
  let donut_radius : ℤ := 78
  let ring_width : ℤ := 16
  let header : List String := [
    s!"<svg xmlns=\"http://www.w3.org/2000/svg\" width=\"{width}\" height=\"{height}\" viewBox=\"0 0 {width} {height}\" role=\"img\" aria-label=\"{title} stats\">",
    "<defs>",
    "  <linearGradient id=\"bg\" x1=\"0\" x2=\"0\" y1=\"0\" y2=\"1\">",
    "    <stop offset=\"0%\" stop-color=\"#0b0f16\"/>",
    "    <stop offset=\"100%\" stop-color=\"#111827\"/>",
    "  </linearGradient>",
    "  <filter id=\"shadow\" x=\"-10%\" y=\"-10%\" width=\"120%\" height=\"120%\">",
    "    <feDropShadow dx=\"0\" dy=\"8\" stdDeviation=\"10\" flood-color=\"#000000\" flood-opacity=\"0.35\"/>",
    "  </filter>",
    "  <filter id=\"softGlow\" x=\"-20%\" y=\"-20%\" width=\"140%\" height=\"140%\">",
    "    <feDropShadow dx=\"0\" dy=\"0\" stdDeviation=\"6\" flood-color=\"#0ea5e9\" flood-opacity=\"0.12\"/>",
    "  </filter>",
    "</defs>",
    "<style>",
    "  .title \x7b font: 600 18px \"Source Sans 3\", \"Segoe UI\", Tahoma, sans-serif; fill: #e2e8f0; \x7d",
    "  .subtitle \x7b font: 500 12px \"Source Sans 3\", \"Segoe UI\", Tahoma, sans-serif; fill: #94a3b8; \x7d",
    "  .label \x7b font: 500 13px \"Source Sans 3\", \"Segoe UI\", Tahoma, sans-serif; fill: #e5e7eb; \x7d",
    "  .value \x7b font: 600 22px \"Source Sans 3\", \"Segoe UI\", Tahoma, sans-serif; fill: #f8fafc; \x7d",
    "  .muted \x7b fill: #94a3b8; \x7d",
    "</style>",
    s!"<rect x=\"1\" y=\"1\" width=\"{width - 2}\" height=\"{height - 2}\" rx=\"16\" fill=\"url(#bg)\" stroke=\"#1f2937\" filter=\"url(#shadow)\"/>",
    s!"<text x=\"{title_x}\" y=\"{title_y}\" class=\"title\">{title}</text>",
    s!"<text x=\"{title_x}\" y=\"{title_y + 18}\" class=\"subtitle\">{subtitle}</text>"]
  if items = [] ∨ totalBytes = 0 then
    header ++
      [s!"<text x=\"{title_x}\" y=\"{title_y + 32}\" class=\"label muted\">No language data</text>",
       "</svg>"]
  else
    let dot_x : ℤ := 32
    let text_x : ℤ := 48
    let value_x : ℤ := 320
    let trackLines : List String := [
      s!"<circle cx=\"{donut_cx}\" cy=\"{donut_cy}\" r=\"{donut_radius}\" fill=\"none\" stroke=\"#1f2937\" stroke-width=\"{ring_width}\"/>",
      s!"<circle cx=\"{donut_cx}\" cy=\"{donut_cy}\" r=\"{donut_radius + 10}\" fill=\"none\" stroke=\"#0f172a\" stroke-width=\"1\" opacity=\"0.6\"/>",
      s!"<line x1=\"{title_x}\" y1=\"{list_start_y - 16}\" x2=\"{width - 28}\" y2=\"{list_start_y - 16}\" stroke=\"#1f2937\" stroke-width=\"1\"/>"]
    let arcLines : List String := (arc_segments items).map (fun a =>
      s!"<circle cx=\"{donut_cx}\" cy=\"{donut_cy}\" r=\"{donut_radius}\" fill=\"none\" stroke=\"{a.color}\" stroke-width=\"{ring_width}\" stroke-dasharray=\"{fmtFixed a.length 2} {fmtFixed (circumference - a.length) 2}\" stroke-dashoffset=\"-{fmtFixed a.offset 2}\" transform=\"rotate(-90 {donut_cx} {donut_cy})\" stroke-linecap=\"round\" filter=\"url(#softGlow)\"/>")
    let legendLines : List String := (items.enum.map (fun p =>
      let y : ℤ := list_start_y + (p.1 : ℤ) * line_height
      [s!"<circle cx=\"{dot_x}\" cy=\"{y - 4}\" r=\"5\" fill=\"{p.2.color}\"/>",
       s!"<text x=\"{text_x}\" y=\"{y}\" class=\"label\">{truncate_label p.2.name}</text>",
       s!"<text x=\"{value_x}\" y=\"{y}\" class=\"label muted\" text-anchor=\"end\">{format_percent p.2.percent}</text>"])).flatten
    let top : Item := items.headD ⟨"", 0, ""⟩
    let centerLines : List String := [
      s!"<text x=\"{donut_cx}\" y=\"{donut_cy - 4}\" class=\"value\" text-anchor=\"middle\">{format_percent top.percent}</text>",
      s!"<text x=\"{donut_cx}\" y=\"{donut_cy + 16}\" class=\"label muted\" text-anchor=\"middle\">{truncate_label top.name 14}</text>"]
    header ++ trackLines ++ arcLines ++ legendLines ++ centerLines ++ ["</svg>"]

/-- `build_svg` (lines 68-174): the accumulated lines joined with
newlines (`"\n".join(svg)`, lines 118 and 174). -/
def build_svg (items : List Item) (totalBytes : ℕ) (width : ℤ := 820)
    (height : Option ℤ := none) : String :=
  join_lines (build_svg_lines items totalBytes width height)

/-- A repository descriptor: the fields of the listing JSON that
`collect_language_totals` reads (lines 40-44).  `repo.get("languages_url")`
is falsy when the key is absent (`none`) or the URL is empty. -/
structure Repo where
  fork : Bool
  archived : Bool
  disabled : Bool
  languages_url : Option String
deriving DecidableEq

/-- `totals[language] = totals.get(language, 0) + size` (line 52) on an
insertion-ordered association list: an existing key is updated in place,
a new key is appended. -/
def addLanguage (totals : List (String × ℕ)) (language : String) (size : ℕ) :
    List (String × ℕ) :=
  if totals.any (fun p => p.1 == language) then
    totals.map (fun p => if p.1 == language then (p.1, p.2 + size) else p)
  else totals ++ [(language, size)]

/-- One iteration of the aggregation loop of `collect_language_totals`
(lines 39-52): forks, archived and disabled repositories are skipped, as
are repositories without a language URL; a failing per-repository fetch
(`try ... except Exception: continue`, lines 47-50) leaves the totals
unchanged; a successful fetch folds every `(language, size)` pair in. -/
def repo_step {ε : Type} (fetchLang : String → Except ε (List (String × ℕ)))
    (totals : List (String × ℕ)) (repo : Repo) : List (String × ℕ) :=
  if repo.fork then totals
  else if repo.archived || repo.disabled then totals
  else match repo.languages_url with
    | none => totals
    | some url =>
      if url = "" then totals
      else match fetchLang url with
        | .error _ => totals
        | .ok languages => languages.foldl (fun t p => addLanguage t p.1 p.2) totals

/-- The pagination loop of `list_repos` (lines 24-34): fetch the current
page; a fetch error propagates (`fetch_json` raising aborts the run), an
empty page ends the loop, and a non-empty page is appended before moving
to the next page number.  `fuel` bounds the number of page fetches; the
Python loop is unbounded, and the two agree on every run in which an
empty page appears within the fuel. -/
def list_reposAux {ε : Type} (fetchPage : ℕ → Except ε (List Repo)) :
    ℕ → ℕ → List Repo → Except ε (List Repo)
  | 0, _, repos => .ok repos
  | fuel + 1, page, repos =>
    match fetchPage page with
    | .error e => .error e
    | .ok [] => .ok repos
    | .ok (d :: data) => list_reposAux fetchPage fuel (page + 1) (repos ++ d :: data)

/-- `list_repos` (lines 24-34): start at page 1 with an empty accumulator. -/
def list_repos {ε : Type} (fetchPage : ℕ → Except ε (List Repo)) (fuel : ℕ) :
    Except ε (List Repo) :=
  list_reposAux fetchPage fuel 1 []

/-- `collect_language_totals` (lines 37-53): a failure of `list_repos`
propagates; otherwise the repositories are folded through `repo_step`
starting from the empty totals dict. -/
def collect_language_totals {ε : Type} (fetchPage : ℕ → Except ε (List Repo))
    (fuel : ℕ) (fetchLang : String → Except ε (List (String × ℕ))) :
    Except ε (List (String × ℕ)) :=
  match list_repos fetchPage fuel with
  | .error e => .error e
  | .ok repos => .ok (repos.foldl (repo_step fetchLang) [])

/-- The filesystem state touched by `main` (lines 228-230): the set of
directories that exist and the files with their contents. -/
structure FS where
  dirs : List String
  files : List (String × String)
deriving DecidableEq

/-- Index one past the last '/' of the list, or 0 when there is none
(Python `p.rfind("/") + 1`). -/
def rfindSlashSucc : List Char → ℕ
  | [] => 0
  | c :: cs =>
    let r := rfindSlashSucc cs
    if r = 0 then (if c = '/' then 1 else 0) else r + 1

/-- `os.path.dirname` for POSIX paths: everything up to the last '/',
with trailing slashes stripped unless the head consists only of slashes.
`pyDirname "out.svg" = ""`, `pyDirname "assets/x.svg" = "assets"`,
`pyDirname "/x" = "/"`. -/
def pyDirname (p : String) : String :=
  let cs := p.toList
  let head := cs.take (rfindSlashSucc cs)
  if head ≠ [] ∧ head.any (fun c => c ≠ '/') then
    String.mk ((head.reverse.dropWhile (fun c => c = '/')).reverse)
  else String.mk head

/-- The write stage of `main` (lines 228-230):
`os.makedirs(os.path.dirname(args.output), exist_ok=True)` followed by
`open(args.output, "w").write(svg)`.  `os.makedirs` on the empty path
raises `FileNotFoundError` even with `exist_ok=True` (it reduces to
`mkdir("")`), which aborts the run; otherwise the parent directory is
created when missing and the file is written, replacing any previous
entry at that path. -/
def write_output (output svgContent : String) (fs : FS) : Except String FS :=
  let parent := pyDirname output
  if parent = "" then .error "FileNotFoundError"
  else
    .ok { dirs := if parent ∈ fs.dirs then fs.dirs else fs.dirs ++ [parent],
          files := (fs.files.filter (fun kv => kv.1 != output)) ++ [(output, svgContent)] }

/-- A fixed repository descriptor, used to build concrete listing stubs. -/
def stubRepo : Repo := { fork := false, archived := false, disabled := false, languages_url := none }

/-- A concrete listing stub: two full pages of 100 repositories, then
empty pages forever. -/
def stubPage : ℕ → Except Unit (List Repo) :=
  fun p => if p ≤ 2 then .ok (List.replicate 100 stubRepo) else .ok []

/-- A concrete per-repository language oracle that fails on the URL
"bad" and answers `{"Go": 5}` elsewhere. -/
def stubLang : String → Except Unit (List (String × ℕ)) :=
  fun url => if url = "bad" then .error () else .ok [("Go", 5)]

/-- A concrete repository whose language fetch fails (URL "bad"). -/
def badRepo : Repo := { fork := false, archived := false, disabled := false, languages_url := some "bad" }

/-- A concrete healthy repository (URL "ok"). -/
def okRepo : Repo := { fork := false, archived := false, disabled := false, languages_url := some "ok" }

/-- A concrete forked repository. -/
def forkRepo : Repo := { fork := true, archived := false, disabled := false, languages_url := some "ok" }

/-! ## Helper lemmas about the ranking stage -/

/-- The stable sort is a permutation of its input. -/
lemma sorted_langs_perm (totals : List (String × ℕ)) :
    (sorted_langs totals).Perm totals :=
  List.perm_insertionSort _ totals

/-- Sorting preserves the total byte count. -/
lemma sorted_langs_bytes (totals : List (String × ℕ)) :
    ((sorted_langs totals).map (·.2)).sum = total_bytes totals :=
  ((sorted_langs_perm totals).map (·.2)).sum_eq

/-- The bytes kept in the top `top` plus the excluded bytes give the total. -/
lemma take_bytes_add_other (totals : List (String × ℕ)) (top : ℕ) :
    (((sorted_langs totals).take top).map (·.2)).sum + other_bytes totals top
      = total_bytes totals := by
  rw [other_bytes, List.map_take, List.map_drop, List.sum_take_add_sum_drop,
    sorted_langs_bytes]

/-- Summing `(value / T) * 100` over an association list. -/
lemma percent_map_sum (l : List (String × ℕ)) (T : ℚ) :
    (l.map (fun nv => ((nv.2 : ℚ) / T) * 100)).sum
      = (((l.map (·.2)).sum : ℕ) : ℚ) / T * 100 := by
  induction l with
  | nil => simp
  | cons a l ih => simp [ih, add_div, add_mul]

/-- The percents of `ranked_items` sum to `kept bytes / total * 100`. -/
lemma ranked_items_percent_sum (totals : List (String × ℕ)) (top : ℕ) :
    ((ranked_items totals top).map Item.percent).sum
      = (((((sorted_langs totals).take top).map (·.2)).sum : ℕ) : ℚ)
          / (total_bytes totals : ℚ) * 100 := by
  rw [ranked_items, List.map_map]
  have h1 : (Item.percent ∘ fun p : ℕ × (String × ℕ) =>
      ({ name := p.2.1,
         percent := ((p.2.2 : ℚ) / (total_bytes totals : ℚ)) * 100,
         color := palette.getD (p.1 % palette.length) "" } : Item))
      = (fun nv : String × ℕ => ((nv.2 : ℚ) / (total_bytes totals : ℚ)) * 100) ∘ Prod.snd :=
    rfl
  rw [h1, ← List.map_map, List.enum_map_snd, percent_map_sum]

/-- C1: for every totals list whose values sum to a nonzero total and any
`top`, the percents of the ranking stage's output sum to exactly 100 (in
the exact-rational model of the float arithmetic, hence within any
floating-point tolerance). -/
theorem rank_languages_percent_sum (totals : List (String × ℕ)) (top : ℕ)
    (h : total_bytes totals ≠ 0) :
    ((rank_languages totals top).map Item.percent).sum = 100 := by
  have hT : ((total_bytes totals : ℚ)) ≠ 0 := Nat.cast_ne_zero.mpr h
  have hsplit := take_bytes_add_other totals top
  rw [rank_languages, if_neg h]
  by_cases ho : 0 < other_bytes totals top
  · rw [if_pos ho, List.map_append, List.sum_append, ranked_items_percent_sum]
    have hq := congrArg (fun n : ℕ => (n : ℚ)) hsplit
    simp only [Nat.cast_add] at hq
    simp only [List.map_cons, List.map_nil, List.sum_cons, List.sum_nil, add_zero]
    rw [div_mul_eq_mul_div, div_mul_eq_mul_div, div_add_div_same, ← add_mul, hq,
      mul_comm, mul_div_assoc, div_self hT, mul_one]
  · rw [if_neg ho, ranked_items_percent_sum]
    have hzero : other_bytes totals top = 0 := Nat.eq_zero_of_not_pos ho
    have hA : (((sorted_langs totals).take top).map (·.2)).sum = total_bytes totals := by
      omega
    rw [hA, div_self hT, one_mul]

/-- Witness for C1 at the concrete input of the spec's example. -/
theorem rank_languages_percent_sum_witness :
    total_bytes [("Go", 700), ("Python", 300)] ≠ 0 ∧
    ((rank_languages [("Go", 700), ("Python", 300)] 8).map Item.percent).sum = 100 :=
  ⟨by decide, rank_languages_percent_sum [("Go", 700), ("Python", 300)] 8 (by decide)⟩

/-- C2: with totals `{"A": 50, "B": 30, "C": 20}` and `top = 1`, the
ranking stage returns exactly `A` at 50 percent followed by the synthetic
"Other" entry at 50 percent with the fixed color `#9ca3af`, placed after
the kept entry despite its equal magnitude. -/
theorem rank_languages_abc_example :
    rank_languages [("A", 50), ("B", 30), ("C", 20)] 1
      = [{ name := "A", percent := 50, color := "#3b82f6" },
         { name := "Other", percent := 50, color := "#9ca3af" }] := by
  norm_num [rank_languages, ranked_items, total_bytes, other_bytes, sorted_langs,
    List.insertionSort, List.orderedInsert, palette, Item.mk.injEq]

/-- The number of kept entries is the smaller of `top` and the number of
languages. -/
lemma ranked_items_length (totals : List (String × ℕ)) (top : ℕ) :
    (ranked_items totals top).length = min top totals.length := by
  rw [ranked_items, List.length_map, List.enum_length, List.length_take,
    (sorted_langs_perm totals).length_eq]

/-- When bytes are excluded, more than `top` languages exist. -/
lemma top_lt_of_other_pos (totals : List (String × ℕ)) (top : ℕ)
    (ho : 0 < other_bytes totals top) : top < totals.length := by
  by_contra hle
  push_neg at hle
  have hlen : (sorted_langs totals).length ≤ top := by
    rw [(sorted_langs_perm totals).length_eq]; exact hle
  rw [other_bytes, List.drop_eq_nil_of_le hlen] at ho
  simp at ho

/-- C3: the ranking stage returns at most `top + 1` entries, with equality
exactly when at least one byte lies outside the top `top` languages. -/
theorem rank_languages_length (totals : List (String × ℕ)) (top : ℕ) :
    (rank_languages totals top).length ≤ top + 1 ∧
    ((rank_languages totals top).length = top + 1 ↔ 0 < other_bytes totals top) := by
  by_cases hz : total_bytes totals = 0
  · have ho : other_bytes totals top = 0 := by
      have := take_bytes_add_other totals top
      omega
    rw [rank_languages, if_pos hz]
    simp [ho]
  · rw [rank_languages, if_neg hz]
    by_cases ho : 0 < other_bytes totals top
    · have hmin : min top totals.length = top :=
        min_eq_left (Nat.le_of_lt (top_lt_of_other_pos totals top ho))
    
      rw [if_pos ho]
      constructor
      · rw [List.length_append, ranked_items_length, hmin]
        simp
      · constructor
        · intro _; exact ho
        · intro _
          rw [List.length_append, ranked_items_length, hmin]
          simp
    · rw [if_neg ho]
      have hle : (ranked_items totals top).length ≤ top := by
        rw [ranked_items_length]; exact min_le_left _ _
      constructor
      · omega
      · constructor
        · intro heq; omega
        · intro h; exact absurd h ho

/-! ## Helper lemmas about the arc layout -/

/-- An entry with non-positive percent is not drawn. -/
lemma arc_segmentsSpec_cons_neg (i : Item) (rest : List Item)
    (hp : ¬ 0 < i.percent) :
    arc_segmentsSpec (i :: rest) = arc_segmentsSpec rest := by
  rw [arc_segmentsSpec, arc_segmentsSpec,
    List.filter_cons_of_neg (by simpa using hp)]

/-- Peeling off a drawn entry: it becomes the first arc at offset zero and
shifts every later arc by its own length. -/
lemma arc_segmentsSpec_cons_pos (i : Item) (rest : List Item)
    (hp : 0 < i.percent) :
    arc_segmentsSpec (i :: rest)
      = { color := i.color, length := circumference * (i.percent / 100), offset := 0 } ::
          (arc_segmentsSpec rest).map
            (fun a => { a with offset := circumference * (i.percent / 100) + a.offset }) := by
  rw [arc_segmentsSpec, arc_segmentsSpec,
    List.filter_cons_of_pos (by simpa using hp)]
  simp only [List.length_cons, List.range_succ_eq_map, List.map_cons, List.map_map,
    List.cons.injEq]
  refine ⟨by simp, ?_⟩
  apply List.map_congr_left
  intro k _
  simp [Function.comp, List.getD_cons_succ, List.take_succ_cons]

/-- The accumulation loop at an arbitrary starting offset computes the
spec layout shifted by that offset. -/
lemma arc_segmentsAux_eq_spec (items : List Item) : ∀ off : ℚ,
    arc_segmentsAux off items
      = (arc_segmentsSpec items).map (fun a => { a with offset := off + a.offset }) := by
  induction items with
  | nil => intro off; simp [arc_segmentsAux, arc_segmentsSpec]
  | cons i rest ih =>
    intro off
    by_cases hp : i.percent ≤ 0
    · rw [arc_segmentsAux, if_pos hp, ih,
        arc_segmentsSpec_cons_neg i rest (by exact not_lt.mpr hp)]
    · push_neg at hp
      rw [arc_segmentsAux, if_neg (by exact not_le.mpr hp),
        arc_segmentsSpec_cons_pos i rest hp, ih]
      simp only [List.map_cons, List.map_map, List.cons.injEq]
      refine ⟨by simp, ?_⟩
      apply List.map_congr_left
      intro a _
      simp [Function.comp, add_assoc]

/-- C5: the arc loop draws exactly one segment per entry with positive
percent, of length `circumference * percent / 100`, each offset by the sum
of the lengths of all previously drawn segments (`arc_segmentsSpec`); and
on the ranking of `{"Go": 700, "Python": 300}` the two arcs cover
fractions 7/10 and 3/10 of the circle. -/
theorem arc_segments_correct :
    (∀ items, arc_segments items = arc_segmentsSpec items) ∧
    (arc_segments (rank_languages [("Go", 700), ("Python", 300)] 8)).map
        (fun a => a.length / circumference) = [7 / 10, 3 / 10] := by
  constructor
  · intro items
    rw [arc_segments, arc_segmentsAux_eq_spec]
    have h : ∀ a : Arc, ({ a with offset := (0 : ℚ) + a.offset }) = a := by
      intro a; cases a; simp
    simp [h]
  · norm_num [rank_languages, ranked_items, total_bytes, other_bytes, sorted_langs,
      List.insertionSort, List.orderedInsert, palette, arc_segments, arc_segmentsAux,
      circumference]

/-! ## Helper lemmas about the rendered document -/

/-- Every accumulated line occurs verbatim inside the joined document. -/
lemma join_lines_has_line (L : List String) (l : String) (h : l ∈ L) :
    l.toList <:+: (join_lines L).toList := by
  induction L with
  | nil => cases h
  | cons a rest ih =>
    cases rest with
    | nil =>
      have ha : l = a := by simpa using h
      subst ha
      exact List.infix_refl _
    | cons b rest2 =>
      rcases List.mem_cons.mp h with rfl | hmem
      · refine ⟨[], ("\n" ++ join_lines (b :: rest2)).toList, ?_⟩
        simp [join_lines, String.toList, String.data_append]
      · refine (ih hmem).trans ⟨(a ++ "\n").toList, [], ?_⟩
        simp [join_lines, String.toList, String.data_append]

set_option maxRecDepth 8000 in
/-- C4: a zero byte total makes the ranking stage yield no entries, and
the renderer on an empty entry list with total 0 (as `main` calls it)
emits the "No language data" text, while none of its lines carries arc
markup (`stroke-dasharray`), a legend dot (`r="5"`), or a legend value or
center text (`text-anchor`). -/
theorem rank_empty_and_no_data_svg :
    (∀ totals top, total_bytes totals = 0 → rank_languages totals top = []) ∧
    strHasSub (build_svg [] 0) "No language data" ∧
    (∀ line ∈ build_svg_lines [] 0 820 none, ¬ strHasSub line "stroke-dasharray") ∧
    (∀ line ∈ build_svg_lines [] 0 820 none, ¬ strHasSub line "r=\"5\"") ∧
    (∀ line ∈ build_svg_lines [] 0 820 none, ¬ strHasSub line "text-anchor") := by
  refine ⟨?_, ?_, ?_, ?_, ?_⟩
  · intro totals top h
    rw [rank_languages, if_pos h]
  · have hmem : "<text x=\"28\" y=\"74\" class=\"label muted\">No language data</text>"
        ∈ build_svg_lines [] 0 820 none := by decide
    have hsub : strHasSub
        "<text x=\"28\" y=\"74\" class=\"label muted\">No language data</text>"
        "No language data" := by decide
    exact List.IsInfix.trans hsub (join_lines_has_line _ _ hmem)
  · decide
  · decide
  · decide

/-- Witness for C4: the zero-total branch applied at a concrete input,
and the per-line exclusions applied to a concrete line of the document. -/
theorem rank_empty_and_no_data_svg_witness :
    rank_languages [("X", 0)] 5 = [] ∧
    ¬ strHasSub "<defs>" "stroke-dasharray" ∧
    ¬ strHasSub "<defs>" "r=\"5\"" ∧
    ¬ strHasSub "<defs>" "text-anchor" :=
  ⟨rank_empty_and_no_data_svg.1 [("X", 0)] 5 (by decide),
   rank_empty_and_no_data_svg.2.2.1 "<defs>" (by decide),
   rank_empty_and_no_data_svg.2.2.2.1 "<defs>" (by decide),
   rank_empty_and_no_data_svg.2.2.2.2 "<defs>" (by decide)⟩

/-- C8: the renderer is a pure function of its arguments — two calls with
equal entry lists, totals, widths and heights return equal strings. -/
theorem build_svg_deterministic (items₁ items₂ : List Item) (t₁ t₂ : ℕ)
    (w₁ w₂ : ℤ) (h₁ h₂ : Option ℤ)
    (hi : items₁ = items₂) (ht : t₁ = t₂) (hw : w₁ = w₂) (hh : h₁ = h₂) :
    build_svg items₁ t₁ w₁ h₁ = build_svg items₂ t₂ w₂ h₂ := by
  rw [hi, ht, hw, hh]

/-- Witness for C8 at a concrete call. -/
theorem build_svg_deterministic_witness :
    build_svg [{ name := "Go", percent := 70, color := "#3b82f6" }] 1000 820 none
      = build_svg [{ name := "Go", percent := 70, color := "#3b82f6" }] 1000 820 none :=
  build_svg_deterministic _ _ _ _ _ _ _ _ rfl rfl rfl rfl

/-- C6: the aggregation step ignores repositories marked fork, archived
or disabled and repositories without a language URL; a repository whose
language fetch fails contributes nothing while the fold over all the
other repositories is unchanged; and a failure of the repository listing
propagates out of `collect_language_totals`. -/
theorem collect_language_totals_policy :
    (∀ (ε : Type) (fetchLang : String → Except ε (List (String × ℕ)))
        (totals : List (String × ℕ)) (repo : Repo),
        (repo.fork = true ∨ repo.archived = true ∨ repo.disabled = true ∨
         repo.languages_url = none ∨ repo.languages_url = some "") →
        repo_step fetchLang totals repo = totals) ∧
    (∀ (ε : Type) (fetchLang : String → Except ε (List (String × ℕ)))
        (init : List (String × ℕ)) (rs₁ rs₂ : List Repo) (r : Repo)
        (url : String) (e : ε),
        r.languages_url = some url → fetchLang url = .error e →
        (rs₁ ++ r :: rs₂).foldl (repo_step fetchLang) init
          = (rs₁ ++ rs₂).foldl (repo_step fetchLang) init) ∧
    (∀ (ε : Type) (fetchPage : ℕ → Except ε (List Repo)) (fuel : ℕ)
        (fetchLang : String → Except ε (List (String × ℕ))) (e : ε),
        list_repos fetchPage fuel = .error e →
        collect_language_totals fetchPage fuel fetchLang = .error e) := by
  refine ⟨?_, ?_, ?_⟩
  · intro ε fetchLang totals repo h
    rcases h with h | h | h | h | h <;>
      · rw [repo_step]
        split <;> simp_all
  · intro ε fetchLang init rs₁ rs₂ r url e hurl hfetch
    rw [List.foldl_append, List.foldl_append, List.foldl_cons]
    congr 1
    rw [repo_step, hurl]
    split
    · rfl
    · split
      · rfl
      · simp [hfetch]
  · intro ε fetchPage fuel fetchLang e h
    rw [collect_language_totals, h]

/-- Witness for C6: a forked repository is skipped; a failing fetch for
the middle repository leaves the fold over its neighbours; a listing
failure propagates. -/
theorem collect_language_totals_policy_witness :
    repo_step stubLang [("Python", 3)] forkRepo = [("Python", 3)] ∧
    ([okRepo] ++ badRepo :: [okRepo]).foldl (repo_step stubLang) []
      = ([okRepo] ++ [okRepo]).foldl (repo_step stubLang) [] ∧
    collect_language_totals (fun _ => .error ()) 1 stubLang = .error () :=
  ⟨collect_language_totals_policy.1 Unit stubLang [("Python", 3)] forkRepo
      (Or.inl (by decide)),
   collect_language_totals_policy.2.1 Unit stubLang [] [okRepo] [okRepo] badRepo
      "bad" () rfl rfl,
   collect_language_totals_policy.2.2 Unit (fun _ => .error ()) 1 stubLang ()
      rfl⟩

/-- One pagination step on an empty page: the loop stops and returns the
accumulated repositories. -/
lemma list_reposAux_stop {ε : Type} (f : ℕ → Except ε (List Repo)) (page : ℕ)
    (acc : List Repo) (fuel : ℕ) (h : f page = .ok []) :
    list_reposAux f (fuel + 1) page acc = .ok acc := by
  rw [list_reposAux.eq_def]
  simp [h]

/-- One pagination step on a non-empty page: the page is appended and the
loop continues on the next page number. -/
lemma list_reposAux_step {ε : Type} (f : ℕ → Except ε (List Repo)) (page : ℕ)
    (acc : List Repo) (fuel : ℕ) (d : Repo) (ds : List Repo)
    (h : f page = .ok (d :: ds)) :
    list_reposAux f (fuel + 1) page acc
      = list_reposAux f fuel (page + 1) (acc ++ d :: ds) := by
  rw [list_reposAux.eq_def]
  simp [h]

/-- C7: the pagination loop starts at page 1, advances one page at a
time, stops at the first empty page and concatenates pages in order: any
listing oracle serving two full pages of 100 repositories and empty pages
from page 3 on yields exactly the 200 descriptors of pages 1 and 2. -/
theorem list_repos_two_pages {ε : Type} (fetchPage : ℕ → Except ε (List Repo))
    (p1 p2 : List Repo) (fuel : ℕ)
    (h1 : fetchPage 1 = .ok p1) (h2 : fetchPage 2 = .ok p2)
    (hl1 : p1.length = 100) (hl2 : p2.length = 100)
    (h3 : ∀ p, 3 ≤ p → fetchPage p = .ok []) (hf : 3 ≤ fuel) :
    list_repos fetchPage fuel = .ok (p1 ++ p2) ∧ (p1 ++ p2).length = 200 := by
  obtain ⟨k, rfl⟩ : ∃ k, fuel = k + 3 := ⟨fuel - 3, by omega⟩
  rcases p1 with _ | ⟨a, p1'⟩
  · simp at hl1
  rcases p2 with _ | ⟨b, p2'⟩
  · simp at hl2
  constructor
  · show list_reposAux fetchPage (k + 1 + 1 + 1) 1 [] = _
    rw [list_reposAux_step fetchPage 1 [] (k + 1 + 1) a p1' h1,
      list_reposAux_step fetchPage 2 ([] ++ a :: p1') (k + 1) b p2' h2,
      list_reposAux_stop fetchPage 3 _ k (h3 3 (by omega))]
    simp
  · rw [List.length_append, hl1, hl2]

/-- C9 counterexample: for an output path with no directory component,
`os.path.dirname` yields the empty string and `os.makedirs("")` raises,
so the write stage fails instead of writing the file. -/
theorem write_output_bare_filename_fails :
    write_output "out.svg" "<svg></svg>" { dirs := [], files := [] }
      = .error "FileNotFoundError" := rfl

/-- C9 (amended): for every output path whose parent directory component
is non-empty, the write stage succeeds, the parent directory is present
afterwards, and the file at the output path holds exactly the rendered
content, replacing any previous file there. -/
theorem write_output_creates_and_overwrites (out content : String) (fs : FS)
    (h : pyDirname out ≠ "") :
    ∃ fs', write_output out content fs = .ok fs' ∧
      pyDirname out ∈ fs'.dirs ∧
      fs'.files.filter (fun kv => kv.1 == out) = [(out, content)] := by
  refine ⟨{ dirs := if pyDirname out ∈ fs.dirs then fs.dirs else fs.dirs ++ [pyDirname out],
            files := fs.files.filter (fun kv => kv.1 != out) ++ [(out, content)] },
    ?_, ?_, ?_⟩
  · rw [write_output, if_neg h]
  · by_cases hd : pyDirname out ∈ fs.dirs
    · simp [hd]
    · simp [hd]
  · rw [List.filter_append]
    have h1 : (fs.files.filter (fun kv => kv.1 != out)).filter
        (fun kv => kv.1 == out) = [] := by
      rw [List.filter_eq_nil_iff]
      intro kv hkv
      have hne := (List.mem_filter.mp hkv).2
      simp only [bne_iff_ne, ne_eq] at hne
      simp [hne]
    rw [h1]
    simp

/-- Witness for the amended C9 on the default output path, overwriting an
existing file. -/
theorem write_output_creates_and_overwrites_witness :
    pyDirname "assets/lang-stats.svg" ≠ "" ∧
    ∃ fs', write_output "assets/lang-stats.svg" "<svg/>"
        { dirs := ["assets"], files := [("assets/lang-stats.svg", "old")] }
        = .ok fs' ∧
      pyDirname "assets/lang-stats.svg" ∈ fs'.dirs ∧
      fs'.files.filter (fun kv => kv.1 == "assets/lang-stats.svg")
        = [("assets/lang-stats.svg", "<svg/>")] :=
  ⟨by decide, write_output_creates_and_overwrites _ _ _ (by decide)⟩

/-- The truncated label has exactly `max_len` characters whenever the
input is longer than `max_len`. -/
lemma truncate_label_length (s : String) (max_len : ℕ) (h : max_len < s.length) :
    (truncate_label s max_len).length = max_len := by
  have hlen : s.length = s.toList.length := rfl
  rw [truncate_label, if_neg (by omega)]
  by_cases h3 : max_len ≤ 3
  · rw [if_pos h3]
    show (s.toList.take max_len).length = max_len
    rw [List.length_take]
    omega
  · rw [if_neg h3]
    rw [String.length_append]
    have h1 : (String.mk (s.toList.take (max_len - 3))).length = max_len - 3 := by
      show (s.toList.take (max_len - 3)).length = max_len - 3
      rw [List.length_take]
      omega
    have h2 : ("..." : String).length = 3 := rfl
    omega

/-- C10: `truncate_label` keeps short labels unchanged and cuts longer
ones to exactly `max_len` characters — the bare prefix when
`max_len ≤ 3`, a prefix plus "..." otherwise — so legend names (default
`max_len = 16`) never exceed 16 characters and the donut-center name
(`max_len = 14`) never exceeds 14. -/
theorem truncate_label_spec (s : String) (max_len : ℕ) (h : 1 ≤ max_len) :
    (s.length ≤ max_len → truncate_label s max_len = s) ∧
    (max_len < s.length → (truncate_label s max_len).length = max_len) ∧
    (max_len < s.length → max_len ≤ 3 →
      truncate_label s max_len = String.mk (s.toList.take max_len)) ∧
    (max_len < s.length → 3 < max_len →
      truncate_label s max_len = String.mk (s.toList.take (max_len - 3)) ++ "...") ∧
    (truncate_label s 16).length ≤ 16 ∧
    (truncate_label s 14).length ≤ 14 := by
  refine ⟨?_, ?_, ?_, ?_, ?_, ?_⟩
  · intro hle
    rw [truncate_label, if_pos hle]
  · intro hlt
    exact truncate_label_length s max_len hlt
  · intro hlt h3
    rw [truncate_label, if_neg (by omega), if_pos h3]
  · intro hlt h3
    rw [truncate_label, if_neg (by omega), if_neg (by omega)]
  · by_cases hle : s.length ≤ 16
    · rw [truncate_label, if_pos hle]
      omega
    · exact le_of_eq (truncate_label_length s 16 (by omega))
  · by_cases hle : s.length ≤ 14
    · rw [truncate_label, if_pos hle]
      omega
    · exact le_of_eq (truncate_label_length s 14 (by omega))

/-- Witness for C10 on a long language name and a tight budget. -/
theorem truncate_label_spec_witness :
    ("JavaScript".length ≤ 4 → truncate_label "JavaScript" 4 = "JavaScript") ∧
    (4 < "JavaScript".length → (truncate_label "JavaScript" 4).length = 4) ∧
    (4 < "JavaScript".length → 4 ≤ 3 →
      truncate_label "JavaScript" 4 = String.mk ("JavaScript".toList.take 4)) ∧
    (4 < "JavaScript".length → 3 < 4 →
      truncate_label "JavaScript" 4
        = String.mk ("JavaScript".toList.take 1) ++ "...") ∧
    (truncate_label "JavaScript" 16).length ≤ 16 ∧
    (truncate_label "JavaScript" 14).length ≤ 14 :=
  truncate_label_spec "JavaScript" 4 (by decide)

/-- Witness for C7 on the concrete two-full-pages-then-empty stub. -/
theorem list_repos_two_pages_witness :
    list_repos stubPage 3
      = .ok (List.replicate 100 stubRepo ++ List.replicate 100 stubRepo) ∧
    (List.replicate 100 stubRepo ++ List.replicate 100 stubRepo).length = 200 :=
  list_repos_two_pages stubPage _ _ 3 rfl rfl (by simp) (by simp)
    (fun p hp => by
      simp only [stubPage]
      rw [if_neg (by omega)])
    (by omega)
